import Mathlib

/-!
Verification development for the sleep-cycle scheduling and actuation
controller of the eightsleep-nosub-app repository.

Modelling conventions, shared by all definitions below:

* Timestamps are integers counting milliseconds on the local timeline of the
  user (the code converts the wall clock into the local timezone of the user
  before any cycle arithmetic, via a string round trip that we treat as an
  opaque producer of the local reference instant).  The model assumes a
  fixed-offset timezone: a calendar day is exactly 86400000 ms and the local
  epoch falls on a local midnight, so the JS calls setHours, setDate and
  getTime become plain integer arithmetic.
* Clock strings are handled through their character lists (String.data), so
  that the split-on-colon and digit parsing of the source are structural
  recursions the kernel can evaluate.  The JS Number conversion applied to
  string fields is modelled on the fragment of its domain the controller
  meets: the empty string evaluates to 0 (the JS quirk central to claim C9)
  and a nonempty all-digit string evaluates to its decimal value; every
  other field is modelled as NaN (Option.none).  Signs, blanks, decimal
  points and hex syntax never appear in clock fields and are outside the
  modelled domain.
* Fallible code is modelled with Option or Except; thrown JS errors become
  Option.none or Except.error values.
* The four source variants of the controller are distinguished by suffixes:
  000 for src/unnamed/part_000, 001 for part_001, 002 for part_002 and
  Route for src/src/app/api/temperatureCron/route.ts.  Definitions shared
  verbatim by all variants carry no suffix.
-/

/-- Milliseconds per minute. -/
def msPerMinute : Int := 60000

/-- Milliseconds per hour. -/
def msPerHour : Int := 3600000

/-- Milliseconds per calendar day (fixed-offset model, no DST). -/
def msPerDay : Int := 86400000

/-- Local midnight of the calendar day containing the instant t.  Models the
anchoring performed by the JS setHours(h, m, 0, 0) call on a Date value. -/
def dayStartMs (t : Int) : Int := t - t % msPerDay

/-- Accumulator form of the JS String.split: cut the character list at every
separator, keeping empty fields, exactly as split produces them. -/
def jsSplitAux (sep : Char) : List Char → List Char → List (List Char)
  | [], acc => [acc.reverse]
  | c :: cs, acc =>
      if c = sep then acc.reverse :: jsSplitAux sep cs []
      else jsSplitAux sep cs (c :: acc)

/-- JS String.split on a single separator character: the empty string yields
one empty field, and a trailing separator yields a trailing empty field. -/
def jsSplit (sep : Char) (cs : List Char) : List (List Char) :=
  jsSplitAux sep cs []

/-- Decimal value of one character, none when it is not a digit. -/
def digitVal (c : Char) : Option Nat :=
  if 48 ≤ c.toNat ∧ c.toNat ≤ 57 then some (c.toNat - 48) else none

/-- Decimal value of a character list, none as soon as one character is not
a digit. -/
def digitsVal : List Char → Option Nat
  | [] => some 0
  | c :: cs =>
      match digitVal c, digitsVal cs with
      | some d, some rest => some (d * 10 ^ cs.length + rest)
      | _, _ => none

/-- Model of the JS Number conversion on clock-string fields, restricted to
the domain described in the module header: the empty field evaluates to 0,
a nonempty all-digit field to its decimal value, anything else to NaN,
encoded as none. -/
def jsNumber (cs : List Char) : Option Int :=
  match cs with
  | [] => some 0
  | _ => (digitsVal cs).map Int.ofNat

/-- The destructuring and validation step of createDateWithTime in part_000
and part_001: take the first two entries of the mapped field list (undefined
when the field is missing), and throw unless both are numbers with hour in
0..23 and minute in 0..59.  Source: src/unnamed/part_000 lines 13-16. -/
def parseFields (nums : List (Option Int)) : Option (Int × Int) :=
  match nums.get? 0, nums.get? 1 with
  | some (some h), some (some m) =>
      if 0 ≤ h ∧ h ≤ 23 ∧ 0 ≤ m ∧ m ≤ 59 then some (h, m) else none
  | _, _ => none

/-- createDateWithTime of part_000: split the clock string on the colon, map
the JS Number conversion over the fields, validate hour and minute, and set
hour and minute on the calendar day of the base instant.
Source: src/unnamed/part_000 lines 12-20. -/
def createDateWithTime (base : Int) (s : String) : Option Int :=
  (parseFields ((jsSplit ':' s.data).map jsNumber)).map
    (fun hm => dayStartMs base + hm.1 * msPerHour + hm.2 * msPerMinute)

/-- addDays of the source: shift an instant by a whole number of calendar
days (setDate arithmetic in a fixed-offset timeline).
Source: src/unnamed/part_000 lines 22-26. -/
def addDays (t : Int) (days : Int) : Int := t + days * msPerDay

/-- isWithinTimeRange of the source: the absolute distance between the two
instants is at most rangeMinutes minutes, written without Math.abs as the
conjunction of the two signed bounds.
Source: src/unnamed/part_000 lines 28-31. -/
def isWithinTimeRange (current target rangeMinutes : Int) : Bool :=
  decide (current - target ≤ rangeMinutes * msPerMinute ∧
          target - current ≤ rangeMinutes * msPerMinute)


/-- SleepCycle of part_000: the six boundary timestamps of one nightly
cycle.  The variants part_001 and part_002 omit warmingTime; their
definitions below simply never read that field.
Source: src/unnamed/part_000 lines 45-52. -/
structure SleepCycle where
  preHeatingTime : Int
  bedTime : Int
  midStageTime : Int
  finalStageTime : Int
  warmingTime : Int
  wakeupTime : Int
deriving DecidableEq

/-- createSleepCycle of part_000 (leadMs = 1 hour) and, with leadMs = 3
hours, of part_001 and part_002: anchor both clock strings on the calendar
day of the base instant, push the wake time one day forward when it does not
exceed the bed time, and derive the remaining boundaries by fixed offsets.
The setHours call that produces the pre-heating boundary is bed time minus
the lead, and the two parses must both succeed or the whole construction
throws.  Source: src/unnamed/part_000 lines 54-70. -/
def createSleepCycle (leadMs base : Int) (bedStr wakeStr : String) :
    Option SleepCycle :=
  match createDateWithTime base bedStr, createDateWithTime base wakeStr with
  | some bed, some wake0 =>
      let wake := if wake0 ≤ bed then addDays wake0 1 else wake0
      some { preHeatingTime := bed - leadMs
             bedTime := bed
             midStageTime := bed + msPerHour
             finalStageTime := wake - 2 * msPerHour
             warmingTime := wake - 30 * msPerMinute
             wakeupTime := wake }
  | _, _ => none

/-- First statement of adjustTimeToCurrentCycle: a boundary strictly before
the cycle start is moved one day forward.
Source: src/unnamed/part_000 lines 73-76. -/
def bumpIfBeforeStart (cycleStart t : Int) : Int :=
  if t < cycleStart then addDays t 1 else t

/-- Second statement of adjustTimeToCurrentCycle: a boundary more than 12
hours ahead of the reference instant is moved one day back.
Source: src/unnamed/part_000 lines 77-79. -/
def pullBackIfFarAhead (currentTime a : Int) : Int :=
  if a > currentTime ∧ a - currentTime > 12 * msPerHour then addDays a (-1)
  else a

/-- adjustTimeToCurrentCycle of the source: the two corrections above in
sequence.  Source: src/unnamed/part_000 lines 72-81. -/
def adjustTimeToCurrentCycle (cycleStart currentTime timeInCycle : Int) :
    Int :=
  pullBackIfFarAhead currentTime (bumpIfBeforeStart cycleStart timeInCycle)

/-- The adjusted cycle built in adjustTemperature: every boundary is passed
through adjustTimeToCurrentCycle with the pre-heating boundary as cycle
start.  Source: src/unnamed/part_000 lines 123-131. -/
def adjustCycle (c : SleepCycle) (now : Int) : SleepCycle :=
  let cs := c.preHeatingTime
  { preHeatingTime := adjustTimeToCurrentCycle cs now c.preHeatingTime
    bedTime := adjustTimeToCurrentCycle cs now c.bedTime
    midStageTime := adjustTimeToCurrentCycle cs now c.midStageTime
    finalStageTime := adjustTimeToCurrentCycle cs now c.finalStageTime
    warmingTime := adjustTimeToCurrentCycle cs now c.warmingTime
    wakeupTime := adjustTimeToCurrentCycle cs now c.wakeupTime }

/-- The boundary pipeline of one part_000 profile evaluation: build the raw
cycle anchored on the local reference instant, then normalize it for day
rollover against that same instant.
Source: src/unnamed/part_000 lines 121-131. -/
def cyclePipeline000 (leadMs now : Int) (bedStr wakeStr : String) :
    Option SleepCycle :=
  (createSleepCycle leadMs now bedStr wakeStr).map (fun c => adjustCycle c now)

/-- The six stage tags of the data model. -/
inductive StageTag
  | preHeating
  | initial
  | mid
  | final
  | warming
  | outsideCycle
deriving DecidableEq

/-- Stage classifier of part_000: a first-match chain of half-open interval
tests in ascending boundary order, defaulting to outside-cycle.
Source: src/unnamed/part_000 lines 147-158. -/
def classifyStage (c : SleepCycle) (now : Int) : StageTag :=
  if c.preHeatingTime ≤ now ∧ now < c.bedTime then .preHeating
  else if c.bedTime ≤ now ∧ now < c.midStageTime then .initial
  else if c.midStageTime ≤ now ∧ now < c.finalStageTime then .mid
  else if c.finalStageTime ≤ now ∧ now < c.warmingTime then .final
  else if c.warmingTime ≤ now ∧ now < c.wakeupTime then .warming
  else .outsideCycle

/-- Stage classifier of route.ts: the same five window tests in the reverse
first-match order (warming first), defaulting to outside-cycle.
Source: src/src/app/api/temperatureCron/route.ts lines 110-121. -/
def classifyStageRoute (c : SleepCycle) (now : Int) : StageTag :=
  if c.warmingTime ≤ now ∧ now < c.wakeupTime then .warming
  else if c.finalStageTime ≤ now ∧ now < c.warmingTime then .final
  else if c.midStageTime ≤ now ∧ now < c.finalStageTime then .mid
  else if c.bedTime ≤ now ∧ now < c.midStageTime then .initial
  else if c.preHeatingTime ≤ now ∧ now < c.bedTime then .preHeating
  else .outsideCycle

/-- Spec-side description of the stage windows, written from the words of
the specification for the refinement claims: membership of the instant in
the half-open window named by the tag, where the final stage ends at the
warming boundary and outside-cycle is the complement of the five windows. -/
def stageWindowSpec (c : SleepCycle) (s : StageTag) (now : Int) : Bool :=
  match s with
  | .preHeating => decide (c.preHeatingTime ≤ now ∧ now < c.bedTime)
  | .initial => decide (c.bedTime ≤ now ∧ now < c.midStageTime)
  | .mid => decide (c.midStageTime ≤ now ∧ now < c.finalStageTime)
  | .final => decide (c.finalStageTime ≤ now ∧ now < c.warmingTime)
  | .warming => decide (c.warmingTime ≤ now ∧ now < c.wakeupTime)
  | .outsideCycle =>
      !(decide (c.preHeatingTime ≤ now ∧ now < c.bedTime) ||
        decide (c.bedTime ≤ now ∧ now < c.midStageTime) ||
        decide (c.midStageTime ≤ now ∧ now < c.finalStageTime) ||
        decide (c.finalStageTime ≤ now ∧ now < c.warmingTime) ||
        decide (c.warmingTime ≤ now ∧ now < c.wakeupTime))

/-- The per-stage level preferences of one thermal profile. -/
structure ProfileLevels where
  initialSleepLevel : Int
  midStageSleepLevel : Int
  finalSleepLevel : Int
deriving DecidableEq

/-- DeviceState of the data model: the heating flag and level read back from
the device collaborator. -/
structure DeviceState where
  isHeating : Bool
  heatingLevel : Int
deriving DecidableEq

/-- The external collaborator calls one profile evaluation can issue. -/
inductive ExtCall
  | tokenRefresh
  | tokenDbWrite
  | statusRead
  | powerOn
  | setLevel (n : Int)
  | powerOff
deriving DecidableEq

/-- An issued collaborator call together with its retry budget: 3 when the
source wraps the call in retryApiCall with the default retry count, 1 when
the source awaits the call directly. -/
structure IssuedCall where
  call : ExtCall
  attempts : Nat
deriving DecidableEq

/-- Setpoint resolver of part_000: the proximity gate over the six
boundaries followed by the priority chain that picks the target level, none
when the gate is closed.  Source: src/unnamed/part_000 lines 140-181. -/
def resolveTarget000 (p : ProfileLevels) (c : SleepCycle) (now : Int) :
    Option Int :=
  let isNearPreHeating := isWithinTimeRange now c.preHeatingTime 15
  let isNearBedTime := isWithinTimeRange now c.bedTime 15
  let isNearMidStage := isWithinTimeRange now c.midStageTime 15
  let isNearFinalStage := isWithinTimeRange now c.finalStageTime 15
  let isNearWarming := isWithinTimeRange now c.warmingTime 15
  let isNearWakeup := isWithinTimeRange now c.wakeupTime 15
  if isNearPreHeating || isNearBedTime || isNearMidStage ||
      isNearFinalStage || isNearWarming || isNearWakeup then
    some
      (if isNearWarming then 2
       else if isNearPreHeating || (isNearBedTime && decide (now < c.bedTime))
         then p.initialSleepLevel
       else if isNearBedTime ||
           (isNearMidStage && decide (now < c.midStageTime))
         then p.initialSleepLevel
       else if isNearMidStage ||
           (isNearFinalStage && decide (now < c.finalStageTime))
         then p.midStageSleepLevel
       else p.finalSleepLevel)
  else none

/-- Actuation of part_000 after target resolution: with a non-null target,
power on only when the device is not heating and set the level only when the
read-back level differs, both suppressed in test mode; with a null target,
power off only when the device is heating, the instant is past wake time and
outside the 15-minute wake window, again suppressed in test mode.
Source: src/unnamed/part_000 lines 162-193. -/
def actuationWrites000 (test : Bool) (status : DeviceState)
    (p : ProfileLevels) (c : SleepCycle) (now : Int) : List ExtCall :=
  match resolveTarget000 p c now with
  | some t =>
      (if status.isHeating = false ∧ test = false then [ExtCall.powerOn]
       else []) ++
      (if status.heatingLevel ≠ t ∧ test = false then [ExtCall.setLevel t]
       else [])
  | none =>
      if status.isHeating = true ∧ now > c.wakeupTime ∧
          isWithinTimeRange now c.wakeupTime 15 = false ∧ test = false then
        [ExtCall.powerOff]
      else []

/-- One whole part_000 profile evaluation as the list of external calls it
issues, paired with the device state the actuation decisions read: the
credential refresh and its database write-back when the posix clock is past
the token expiry and test mode is off, then the status read (replaced by the
fixed inert state in test mode), then the actuation writes.
Source: src/unnamed/part_000 lines 104-193. -/
def profileTrace000 (test : Bool) (nowPosix expiry userNow : Int)
    (live : DeviceState) (p : ProfileLevels) (c : SleepCycle) :
    List ExtCall × DeviceState :=
  let refreshCalls :=
    if test = false ∧ nowPosix > expiry then
      [ExtCall.tokenRefresh, ExtCall.tokenDbWrite]
    else []
  let rd :=
    if test then (([] : List ExtCall), ⟨false, 0⟩)
    else ([ExtCall.statusRead], live)
  (refreshCalls ++ rd.1 ++ actuationWrites000 test rd.2 p c userNow, rd.2)

/-- Setpoint resolver of part_002 (and, with the same windows, part_001):
strict half-open interval membership picks the level of the stage containing
the instant, none outside the four windows.  The variant has no warming
stage, so only the four boundaries below are read.
Source: src/unnamed/part_002 lines 83-91. -/
def resolveTarget002 (p : ProfileLevels) (preHeat bed mid finalT wake now :
    Int) : Option Int :=
  let isPreHeating := decide (preHeat ≤ now ∧ now < bed)
  let isInitial := decide (bed ≤ now ∧ now < mid)
  let isMid := decide (mid ≤ now ∧ now < finalT)
  let isFinal := decide (finalT ≤ now ∧ now < wake)
  if isPreHeating || isInitial then some p.initialSleepLevel
  else if isMid then some p.midStageSleepLevel
  else if isFinal then some p.finalSleepLevel
  else none

/-- Spec-side stage view for the strict-interval variants, written from the
words of the specification: the four half-open windows of part_002 in
ascending order, outside-cycle elsewhere, never warming. -/
def classifyStage4 (preHeat bed mid finalT wake now : Int) : StageTag :=
  if preHeat ≤ now ∧ now < bed then .preHeating
  else if bed ≤ now ∧ now < mid then .initial
  else if mid ≤ now ∧ now < finalT then .mid
  else if finalT ≤ now ∧ now < wake then .final
  else .outsideCycle

/-- Spec-side setpoint mapping, written from the words of the
specification: pre-heating and initial map to the initial level, mid to the
mid level, final to the final level, warming to the configured spike level,
outside-cycle to no action. -/
def setpointSpec (spike : Int) (p : ProfileLevels) : StageTag → Option Int
  | .preHeating => some p.initialSleepLevel
  | .initial => some p.initialSleepLevel
  | .mid => some p.midStageSleepLevel
  | .final => some p.finalSleepLevel
  | .warming => some spike
  | .outsideCycle => none

/-- Actuation of part_002: with a non-null target and test mode off, the
variant always issues power-on and then set-level, without reading the
device state at all; with a null target it issues power-off whenever the
instant is past wake time.  Source: src/unnamed/part_002 lines 96-106. -/
def actuationWrites002 (test : Bool) (p : ProfileLevels)
    (preHeat bed mid finalT wake now : Int) : List ExtCall :=
  match resolveTarget002 p preHeat bed mid finalT wake now with
  | some t =>
      if test = false then [ExtCall.powerOn, ExtCall.setLevel t] else []
  | none =>
      if now > wake ∧ test = false then [ExtCall.powerOff] else []

/-- Setpoint resolver of route.ts: the proximity gate over the six
boundaries, a default target of the mid-stage level, and a priority chain
driven by the reverse-order classifier; none when the gate is closed.
Source: src/src/app/api/temperatureCron/route.ts lines 105-137. -/
def resolveTargetRoute (p : ProfileLevels) (c : SleepCycle) (now : Int) :
    Option Int :=
  let isNearWarming := isWithinTimeRange now c.warmingTime 15
  let isNearFinal := isWithinTimeRange now c.finalStageTime 15
  let isNearWakeup := isWithinTimeRange now c.wakeupTime 15
  let stage := classifyStageRoute c now
  if isNearWarming || isNearWakeup || isNearFinal ||
      isWithinTimeRange now c.midStageTime 15 ||
      isWithinTimeRange now c.bedTime 15 ||
      isWithinTimeRange now c.preHeatingTime 15 then
    some
      (if isNearWarming || decide (stage = .warming) then 10
       else if stage = .final then p.finalSleepLevel
       else if stage = .initial ∨ stage = .preHeating then
         p.initialSleepLevel
       else p.midStageSleepLevel)
  else none

/-- Actuation of route.ts with retry budgets: with a non-null target and
test mode off, the status read goes through retryApiCall (budget 3), then
power-on and set-level are awaited directly (budget 1) under the same state
comparisons as part_000; with a null target, power-off is awaited directly
(budget 1) whenever the instant is past wake time and outside the 15-minute
wake window, with no heating check.
Source: src/src/app/api/temperatureCron/route.ts lines 125-149. -/
def actuationCallsRoute (test : Bool) (live : DeviceState)
    (p : ProfileLevels) (c : SleepCycle) (now : Int) : List IssuedCall :=
  match resolveTargetRoute p c now with
  | some t =>
      if test = false then
        ⟨ExtCall.statusRead, 3⟩ ::
          ((if live.isHeating = false then [⟨ExtCall.powerOn, 1⟩] else []) ++
           (if live.heatingLevel ≠ t then [⟨ExtCall.setLevel t, 1⟩] else []))
      else []
  | none =>
      if now > c.wakeupTime ∧ isWithinTimeRange now c.wakeupTime 15 = false ∧
          test = false then
        [⟨ExtCall.powerOff, 1⟩]
      else []

/-- Decidable equality for Except results, needed to evaluate concrete
retry traces. -/
instance instDecEqExcept (E T : Type) [DecidableEq E] [DecidableEq T] :
    DecidableEq (Except E T)
  | .ok a, .ok b =>
      if h : a = b then .isTrue (congrArg Except.ok h)
      else .isFalse (fun hc => h (Except.ok.inj hc))
  | .ok _, .error _ => .isFalse (fun hc => Except.noConfusion hc)
  | .error _, .ok _ => .isFalse (fun hc => Except.noConfusion hc)
  | .error e, .error f =>
      if h : e = f then .isTrue (congrArg Except.error h)
      else .isFalse (fun hc => h (Except.error.inj hc))

/-- Result of one retryApiCall run: the surfaced result, the number of
attempts made, and the list of backoff sleeps performed, in order and in
milliseconds. -/
structure RetryTrace (E T : Type) where
  result : Except E T
  attempts : Nat
  sleeps : List Nat
deriving DecidableEq

/-- Loop body of retryApiCall: fuel counts the remaining iterations of the
for loop (initially the retry count), i is the current attempt index and acc
the backoff sleeps performed so far, newest first.  A successful attempt
returns its value; a failing attempt rethrows when it is the last one and
otherwise sleeps 1000 * 2 ^ i ms; fuel running out models the unreachable
throw after the loop, surfacing the distinguished fallback error.
Source: src/unnamed/part_000 lines 33-43. -/
def retryGo (E T : Type) (fallback : E) (call : Nat → Except E T) :
    Nat → Nat → List Nat → RetryTrace E T
  | 0, i, acc => ⟨.error fallback, i, acc.reverse⟩
  | fuel + 1, i, acc =>
      match call i with
      | .ok v => ⟨.ok v, i + 1, acc.reverse⟩
      | .error e =>
          if fuel = 0 then ⟨.error e, i + 1, acc.reverse⟩
          else retryGo E T fallback call fuel (i + 1) (1000 * 2 ^ i :: acc)

/-- retryApiCall of the source: run the loop from attempt 0 with the given
retry count (the source default is 3).
Source: src/unnamed/part_000 lines 33-43. -/
def retryApiCall (E T : Type) (fallback : E) (call : Nat → Except E T)
    (retries : Nat) : RetryTrace E T :=
  retryGo E T fallback call retries 0 []

/-- The per-profile loop of the orchestrator: each profile body runs inside
its own try/catch, so a failing body contributes its logged error and the
loop continues with the remaining profiles.
Source: src/unnamed/part_000 lines 95-197. -/
def processProfiles (P E : Type) (body : P → Except E Unit) :
    List P → List (P × Option E)
  | [] => []
  | p :: rest =>
      (p, match body p with | .ok _ => none | .error e => some e) ::
        processProfiles P E body rest

/-- adjustTemperature of part_000 at the orchestration level: a failing
profile fetch is caught by the outer handler, logged and rethrown; a
successful fetch processes every profile with per-profile containment.
Source: src/unnamed/part_000 lines 88-202. -/
def adjustTemperature000 (P E : Type) (fetch : Except E (List P))
    (body : P → Except E Unit) : Except E (List (P × Option E)) :=
  match fetch with
  | .error e => .error e
  | .ok ps => .ok (processProfiles P E body ps)

/-- GET of part_000: the run is awaited inside a try/catch, so the endpoint
reports success exactly when adjustTemperature did not propagate an error.
Source: src/unnamed/part_000 lines 204-221. -/
def responseSuccess000 (P E : Type) (fetch : Except E (List P))
    (body : P → Except E Unit) : Bool :=
  match adjustTemperature000 P E fetch body with
  | .ok _ => true
  | .error _ => false

/-- adjustTemperature of route.ts at the orchestration level: the outer
catch only logs, so a failing profile fetch makes the run return normally
with no profile processed.
Source: src/src/app/api/temperatureCron/route.ts lines 77-153. -/
def adjustTemperatureRoute (P E : Type) (fetch : Except E (List P))
    (body : P → Except E Unit) : List (P × Option E) :=
  match fetch with
  | .error _ => []
  | .ok ps => processProfiles P E body ps

/-- GET of route.ts: the run never throws, so the endpoint unconditionally
reports success after awaiting it.
Source: src/src/app/api/temperatureCron/route.ts lines 155-161. -/
def responseSuccessRoute (P E : Type) (fetch : Except E (List P))
    (body : P → Except E Unit) : Bool :=
  let _run := adjustTemperatureRoute P E fetch body
  true

/-- C5: the day-rollover correction is idempotent on every boundary that is
at most one day before the cycle start and at most 12 hours plus one day
ahead of the reference instant; outside these bounds it is not idempotent,
and such boundaries do arise from valid profiles (see the
counterexample). -/
theorem rollover_adjust_idempotent_bounded (cycleStart currentTime t : Int)
    (hlo : cycleStart - msPerDay ≤ t)
    (hhi : t ≤ currentTime + 12 * msPerHour + msPerDay) :
    adjustTimeToCurrentCycle cycleStart currentTime
        (adjustTimeToCurrentCycle cycleStart currentTime t) =
      adjustTimeToCurrentCycle cycleStart currentTime t := by
  unfold adjustTimeToCurrentCycle pullBackIfFarAhead bumpIfBeforeStart
    addDays msPerDay msPerHour at *
  split_ifs at * <;> omega

/-- C5 witness: the bounded idempotence theorem applied at a concrete
boundary. -/
theorem rollover_adjust_idempotent_bounded_witness :
    adjustTimeToCurrentCycle 0 0 (adjustTimeToCurrentCycle 0 0 79200000) =
      adjustTimeToCurrentCycle 0 0 79200000 :=
  rollover_adjust_idempotent_bounded 0 0 79200000 (by decide) (by decide)

/-- C5 counterexample: the correction is not idempotent, even on a boundary
the calculator itself produces: for the valid profile with bed time 22:00
and wake time 21:00 evaluated at the local instant 00:30, the raw wake
boundary lies on the next day at 21:00 (44.5 hours ahead of the instant,
with cycle start 21:00 of the current day); one application of the
correction moves it to 21:00 of the current day, and a second application
moves it again, to 21:00 of the previous day. -/
theorem rollover_adjust_not_idempotent_cex :
    (createSleepCycle msPerHour 1800000 "22:00" "21:00").map
        (fun c => (c.preHeatingTime, c.wakeupTime)) =
        some (75600000, 162000000) ∧
      adjustTimeToCurrentCycle 75600000 1800000 162000000 = 75600000 ∧
      adjustTimeToCurrentCycle 75600000 1800000
          (adjustTimeToCurrentCycle 75600000 1800000 162000000) =
        -10800000 := by decide

/-- C4: for every reference instant and pair of parseable clock strings,
createSleepCycle anchors bed and wake on the calendar day of the reference
instant, advances the wake boundary by exactly one day when it does not
exceed the bed boundary, and sets mid stage to bed plus one hour, final
stage to wake minus two hours, warming to wake minus thirty minutes and
pre-heating to bed minus the configured lead offset (one hour in part_000,
three hours in part_001 and part_002). -/
theorem sleep_cycle_boundary_arithmetic (leadMs base : Int)
    (bedStr wakeStr : String) (bh bm wh wm : Int)
    (hbed : parseFields ((jsSplit ':' bedStr.data).map jsNumber) =
      some (bh, bm))
    (hwake : parseFields ((jsSplit ':' wakeStr.data).map jsNumber) =
      some (wh, wm)) :
    ∃ c, createSleepCycle leadMs base bedStr wakeStr = some c ∧
      c.bedTime = dayStartMs base + bh * msPerHour + bm * msPerMinute ∧
      c.wakeupTime =
        (if wh * msPerHour + wm * msPerMinute ≤
            bh * msPerHour + bm * msPerMinute then
          dayStartMs base + wh * msPerHour + wm * msPerMinute + msPerDay
        else dayStartMs base + wh * msPerHour + wm * msPerMinute) ∧
      c.midStageTime = c.bedTime + msPerHour ∧
      c.finalStageTime = c.wakeupTime - 2 * msPerHour ∧
      c.warmingTime = c.wakeupTime - 30 * msPerMinute ∧
      c.preHeatingTime = c.bedTime - leadMs := by
  unfold createSleepCycle createDateWithTime
  rw [hbed, hwake]
  simp only [Option.map_some']
  refine ⟨_, rfl, rfl, ?_, rfl, rfl, rfl, rfl⟩
  unfold addDays
  split_ifs with hc1 hc2 hc2 <;> first | omega | rfl

/-- C4 witness: the boundary arithmetic theorem applied to the profile with
bed time 22:00 and wake time 06:00 at the local reference instant 06:10 of
day one, with a one-hour lead. -/
theorem sleep_cycle_boundary_arithmetic_witness :
    ∃ c, createSleepCycle 3600000 108600000 "22:00" "06:00" = some c ∧
      c.bedTime = dayStartMs 108600000 + 22 * msPerHour + 0 * msPerMinute ∧
      c.wakeupTime =
        (if 6 * msPerHour + 0 * msPerMinute ≤
            22 * msPerHour + 0 * msPerMinute then
          dayStartMs 108600000 + 6 * msPerHour + 0 * msPerMinute + msPerDay
        else dayStartMs 108600000 + 6 * msPerHour + 0 * msPerMinute) ∧
      c.midStageTime = c.bedTime + msPerHour ∧
      c.finalStageTime = c.wakeupTime - 2 * msPerHour ∧
      c.warmingTime = c.wakeupTime - 30 * msPerMinute ∧
      c.preHeatingTime = c.bedTime - 3600000 :=
  sleep_cycle_boundary_arithmetic 3600000 108600000 "22:00" "06:00"
    22 0 6 0 (by decide) (by decide)

/-- C1: whenever the six boundaries are in ascending order (the ordering
invariant of the data model), the part_000 classifier assigns a tag if and
only if the instant lies in the half-open window of that tag, so the five
windows are mutually exclusive, cover the cycle without gaps, and
outside-cycle is exactly their complement; without the ordering hypothesis
the windows of a valid profile can overlap (see the counterexample). -/
theorem stage_classifier_partition_sorted (c : SleepCycle) (now : Int)
    (h1 : c.preHeatingTime ≤ c.bedTime) (h2 : c.bedTime ≤ c.midStageTime)
    (h3 : c.midStageTime ≤ c.finalStageTime)
    (h4 : c.finalStageTime ≤ c.warmingTime)
    (h5 : c.warmingTime ≤ c.wakeupTime) (s : StageTag) :
    classifyStage c now = s ↔ stageWindowSpec c s now = true := by
  unfold classifyStage stageWindowSpec
  cases s <;> split_ifs <;> (try simp_all) <;> omega

/-- C1 witness: the partition theorem applied to a concrete ascending cycle
and an instant in the initial window. -/
theorem stage_classifier_partition_witness :
    classifyStage ⟨0, 3600000, 7200000, 10800000, 14400000, 18000000⟩
        3700000 = .initial ↔
      stageWindowSpec ⟨0, 3600000, 7200000, 10800000, 14400000, 18000000⟩
        .initial 3700000 = true :=
  stage_classifier_partition_sorted
    ⟨0, 3600000, 7200000, 10800000, 14400000, 18000000⟩ 3700000
    (by decide) (by decide) (by decide) (by decide) (by decide) .initial

/-- C1 counterexample: for the valid profile with bed time 22:00 and wake
time 23:00, evaluated at the local instant 22:10, the pipeline of part_000
produces a cycle whose final and initial windows both contain the instant,
so the windows are not mutually exclusive, and the classifier answers
initial even though the instant is in the final window, so the tag is not
determined by window membership. -/
theorem stage_windows_overlap_cex :
    (cyclePipeline000 msPerHour 79800000 "22:00" "23:00").map
        (fun c => (stageWindowSpec c .final 79800000,
                   stageWindowSpec c .initial 79800000,
                   classifyStage c 79800000)) =
      some (true, true, .initial) := by decide

/-- C6: the setpoint resolver of the strict-interval variants (part_002 and,
with the same windows, part_001) is exactly the pure stage mapping of the
specification: pre-heating and initial yield the initial level, mid the mid
level, final the final level and outside-cycle no action, for every choice
of boundaries, instant and spike constant; the proximity variants do not
satisfy the mapping (see the counterexample). -/
theorem resolver002_matches_spec_mapping (spike : Int) (p : ProfileLevels)
    (preHeat bed mid finalT wake now : Int) :
    resolveTarget002 p preHeat bed mid finalT wake now =
      setpointSpec spike p (classifyStage4 preHeat bed mid finalT wake now) := by
  simp only [resolveTarget002, classifyStage4, setpointSpec]
  split_ifs <;> simp_all

/-- C6 counterexample: for the profile with bed time 22:00, wake time 06:00
and levels 3, 2, 7, evaluated by part_000 at the local instant 06:10 of day
one (ten minutes past wake time), the classifier answers outside-cycle yet
the resolver, through the near-wakeup proximity flag, still produces the
final level 7 instead of no action. -/
theorem resolver000_outside_cycle_target_cex :
    (cyclePipeline000 msPerHour 108600000 "22:00" "06:00").map
        (fun c => (classifyStage c 108600000,
                   resolveTarget000 ⟨3, 2, 7⟩ c 108600000)) =
      some (StageTag.outsideCycle, some 7) := by decide

/-- C2: in part_000 (and the other variants that read the device state
before writing), when the resolved target is non-null and the read-back
device state already heats at exactly the target level, the actuation issues
zero write calls; the part_002 variant, which writes without reading, does
not satisfy this (see the counterexample). -/
theorem actuation_idempotent_skip (status : DeviceState) (p : ProfileLevels)
    (c : SleepCycle) (now t : Int)
    (hres : resolveTarget000 p c now = some t)
    (hheat : status.isHeating = true) (hlvl : status.heatingLevel = t) :
    actuationWrites000 false status p c now = [] := by
  unfold actuationWrites000
  rw [hres]
  simp [hheat, hlvl]

/-- C2 witness: the idempotence theorem applied to a concrete ascending
cycle at its pre-heating boundary with the device already heating at the
initial level. -/
theorem actuation_idempotent_skip_witness :
    actuationWrites000 false ⟨true, 3⟩ ⟨3, 2, 7⟩
        ⟨0, 3600000, 7200000, 10800000, 14400000, 18000000⟩ 0 = [] :=
  actuation_idempotent_skip ⟨true, 3⟩ ⟨3, 2, 7⟩
    ⟨0, 3600000, 7200000, 10800000, 14400000, 18000000⟩ 0 3
    (by decide) (by decide) (by decide)

/-- C2 counterexample: part_002 never reads the device state, so in the mid
stage with target level 2 it issues power-on and set-level even though a
device already heating at level 2 would need neither call. -/
theorem actuation002_always_writes_cex :
    actuationWrites002 false ⟨3, 2, 7⟩ 0 3600000 7200000 10800000 18000000
        9000000 = [ExtCall.powerOn, ExtCall.setLevel 2] := by decide

/-- C7: in part_000, when the resolved target is null and the instant is
past the wake boundary, the actuation issues a power-off call if and only if
the device is currently heating; route.ts and part_002 power off without the
heating check (see the counterexample). -/
theorem shutoff000_iff_heating (status : DeviceState) (p : ProfileLevels)
    (c : SleepCycle) (now : Int)
    (hres : resolveTarget000 p c now = none) (hpast : now > c.wakeupTime) :
    (ExtCall.powerOff ∈ actuationWrites000 false status p c now) ↔
      status.isHeating = true := by
  have hnear : isWithinTimeRange now c.wakeupTime 15 = false := by
    by_contra hc
    rw [Bool.not_eq_false] at hc
    simp only [resolveTarget000, hc, Bool.or_true] at hres
    exact Option.noConfusion hres
  unfold actuationWrites000
  rw [hres]
  cases hstat : status.isHeating <;>
    simp [hstat, hnear, hpast]

/-- C7 witness: the shutoff theorem applied one hour past wake time with the
device heating. -/
theorem shutoff000_iff_heating_witness :
    (ExtCall.powerOff ∈ actuationWrites000 false ⟨true, 5⟩ ⟨3, 2, 7⟩
        ⟨0, 3600000, 7200000, 10800000, 14400000, 18000000⟩ 21600000) ↔
      (true : Bool) = true :=
  shutoff000_iff_heating ⟨true, 5⟩ ⟨3, 2, 7⟩
    ⟨0, 3600000, 7200000, 10800000, 14400000, 18000000⟩ 21600000
    (by decide) (by decide)

/-- C7 counterexample: route.ts evaluated one hour past wake time with the
device already off still issues a power-off call, because its shutdown
branch checks neither the heating flag nor the device state. -/
theorem route_shutoff_when_off_cex :
    actuationCallsRoute false ⟨false, 0⟩ ⟨3, 2, 7⟩
        ⟨0, 3600000, 7200000, 10800000, 14400000, 18000000⟩ 21600000 =
      [⟨ExtCall.powerOff, 1⟩] := by decide

/-- Helper bound for the retry loop: starting at attempt index i with the
given fuel, the number of attempts reported never exceeds i plus the fuel. -/
theorem retryGo_attempts_le (E T : Type) (fallback : E)
    (call : Nat → Except E T) :
    ∀ fuel i acc, (retryGo E T fallback call fuel i acc).attempts ≤ i + fuel := by
  intro fuel
  induction fuel with
  | zero => intro i acc; simp [retryGo]
  | succ n ih =>
      intro i acc
      unfold retryGo
      cases hc : call i with
      | ok v => simp
      | error e =>
          by_cases hn : n = 0
          · subst hn; simp
          · dsimp only
            rw [if_neg hn]
            have := ih (i + 1) (1000 * 2 ^ i :: acc)
            omega

/-- C3: retryApiCall with the source default of 3 retries makes at most 3
attempts; a call failing twice and succeeding on the third attempt is
surfaced as a success after backoff sleeps of 1000 ms and 2000 ms; a call
failing on all three attempts surfaces the error of the third attempt after
the same two sleeps and stops.  (This is the behaviour of every call routed
through retryApiCall; the route.ts variant issues its write calls outside
the wrapper, see the counterexample.) -/
theorem retry_policy_three_attempts (E T : Type) (fallback : E)
    (callA callB : Nat → Except E T) (v : T) (eA0 eA1 : E) (eB : Nat → E)
    (hA0 : callA 0 = .error eA0) (hA1 : callA 1 = .error eA1)
    (hA2 : callA 2 = .ok v)
    (hB : ∀ i, i < 3 → callB i = .error (eB i)) :
    retryApiCall E T fallback callA 3 = ⟨.ok v, 3, [1000, 2000]⟩ ∧
      retryApiCall E T fallback callB 3 = ⟨.error (eB 2), 3, [1000, 2000]⟩ ∧
      ∀ call : Nat → Except E T,
        (retryApiCall E T fallback call 3).attempts ≤ 3 := by
  refine ⟨?_, ?_, ?_⟩
  · simp [retryApiCall, retryGo, hA0, hA1, hA2]
  · simp [retryApiCall, retryGo, hB 0 (by omega), hB 1 (by omega),
      hB 2 (by omega)]
  · intro call
    have h3 := retryGo_attempts_le E T fallback call 3 0 []
    simpa [retryApiCall] using h3

/-- C3 witness: the retry policy theorem applied to a call that fails twice
then succeeds with value 7, and a call that always fails with its attempt
index. -/
theorem retry_policy_three_attempts_witness :
    retryApiCall Nat Nat 99
        (fun i => if i < 2 then .error i else .ok 7) 3 =
        ⟨.ok 7, 3, [1000, 2000]⟩ ∧
      retryApiCall Nat Nat 99 (fun i => .error i) 3 =
        ⟨.error 2, 3, [1000, 2000]⟩ ∧
      ∀ call : Nat → Except Nat Nat,
        (retryApiCall Nat Nat 99 call 3).attempts ≤ 3 := by
  have h := retry_policy_three_attempts Nat Nat 99
    (fun i => if i < 2 then .error i else .ok 7) (fun i => .error i)
    7 0 1 (fun i => i) (by decide) (by decide) (by decide)
    (fun i _ => rfl)
  simpa using h

/-- C3 counterexample: in route.ts, at the bed-time boundary with the device
off, the status read is wrapped in retryApiCall (budget 3 attempts) but the
power-on and set-level calls are awaited directly, so each of those
device-API calls is attempted at most once, not up to 3 times. -/
theorem route_write_calls_single_attempt_cex :
    actuationCallsRoute false ⟨false, 0⟩ ⟨3, 2, 7⟩
        ⟨0, 3600000, 7200000, 10800000, 14400000, 18000000⟩ 3600000 =
      [⟨ExtCall.statusRead, 3⟩, ⟨ExtCall.powerOn, 1⟩,
       ⟨ExtCall.setLevel 3, 1⟩] := by decide

/-- Helper: the per-profile loop distributes over list append, so the
profiles after any point are processed independently of what happened
before. -/
theorem processProfiles_append (P E : Type) (body : P → Except E Unit)
    (xs ys : List P) :
    processProfiles P E body (xs ++ ys) =
      processProfiles P E body xs ++ processProfiles P E body ys := by
  induction xs with
  | nil => rfl
  | cons x xs ih => simp [processProfiles, ih]

/-- C8: in part_000, a profile whose body throws contributes its contained
error and every remaining profile is still processed, with the endpoint
reporting success; a failing profile fetch propagates out of the run and the
endpoint reports failure.  (route.ts and part_001 swallow the fetch failure
instead, see the counterexample.) -/
theorem orchestrator000_containment_and_propagation (P E : Type)
    (body : P → Except E Unit) (ps1 ps2 : List P) (p : P) (e fe : E)
    (hp : body p = .error e) :
    adjustTemperature000 P E (.ok (ps1 ++ p :: ps2)) body =
        .ok (processProfiles P E body ps1 ++
          (p, some e) :: processProfiles P E body ps2) ∧
      responseSuccess000 P E (.ok (ps1 ++ p :: ps2)) body = true ∧
      adjustTemperature000 P E (.error fe) body = .error fe ∧
      responseSuccess000 P E (.error fe) body = false := by
  refine ⟨?_, rfl, rfl, rfl⟩
  simp [adjustTemperature000, processProfiles_append, processProfiles, hp]

/-- C8 witness: the containment theorem applied to three profiles where the
middle one fails. -/
theorem orchestrator000_containment_witness :
    adjustTemperature000 Nat Nat
        (.ok ([0] ++ 1 :: [2]))
        (fun n => if n = 1 then .error 5 else .ok ()) =
        .ok (processProfiles Nat Nat
            (fun n => if n = 1 then .error 5 else .ok ()) [0] ++
          (1, some 5) :: processProfiles Nat Nat
            (fun n => if n = 1 then .error 5 else .ok ()) [2]) ∧
      responseSuccess000 Nat Nat (.ok ([0] ++ 1 :: [2]))
        (fun n => if n = 1 then .error 5 else .ok ()) = true ∧
      adjustTemperature000 Nat Nat (.error 9)
        (fun n => if n = 1 then .error 5 else .ok ()) = .error 9 ∧
      responseSuccess000 Nat Nat (.error 9)
        (fun n => if n = 1 then .error 5 else .ok ()) = false :=
  orchestrator000_containment_and_propagation Nat Nat
    (fun n => if n = 1 then .error 5 else .ok ()) [0] [2] 1 5 9 (by decide)

/-- C8 counterexample: in route.ts a failing profile fetch is swallowed by
the outer catch, the run returns normally with no profile processed, and the
endpoint still reports success, so the fetch failure is not propagated to
the caller. -/
theorem route_swallows_fetch_failure_cex :
    responseSuccessRoute Nat Nat (.error 5) (fun _ => .ok ()) = true ∧
      adjustTemperatureRoute Nat Nat (.error 5) (fun _ => .ok ()) = [] :=
  ⟨rfl, rfl⟩

/-- C10: with test mode enabled, one part_000 profile evaluation issues no
external collaborator call at all — no credential refresh or database
write-back even with the token already expired, no device status read, and
no device write — and the heating status used by the actuation decisions is
the fixed inert state. -/
theorem test_mode_no_external_calls (nowPosix expiry userNow : Int)
    (live : DeviceState) (p : ProfileLevels) (c : SleepCycle)
    (hexp : nowPosix > expiry) :
    profileTrace000 true nowPosix expiry userNow live p c =
      ([], ⟨false, 0⟩) := by
  unfold profileTrace000 actuationWrites000
  cases hres : resolveTarget000 p c userNow <;> simp [hres]

/-- C10 witness: the test-mode theorem applied with an expired token and a
live device state that would otherwise trigger writes. -/
theorem test_mode_no_external_calls_witness :
    profileTrace000 true 10 5 3600000 ⟨true, 9⟩ ⟨3, 2, 7⟩
        ⟨0, 3600000, 7200000, 10800000, 14400000, 18000000⟩ =
      ([], ⟨false, 0⟩) :=
  test_mode_no_external_calls 10 5 3600000 ⟨true, 9⟩ ⟨3, 2, 7⟩
    ⟨0, 3600000, 7200000, 10800000, 14400000, 18000000⟩ (by decide)
